import Mathlib

/-!
# Verification of the inference-request orchestration layer

Shallow embedding of `src/app.py` (Sign-Language-Detection-by-using-YOLOv5):
the `ClientApp` class, the `/warmup` and `/predict` routes, the external
YOLO invocation, and the output-artifact resolution logic, together with a
base64 image codec modelled from the spec (its implementation lives in
`signLanguage.utils.main_utils`, outside the provided sources).
-/

namespace SignApp

/-! ## Base64 image codec -/

/-- Modelled from the spec: `ImageCodec` (§4.4), implemented in the repository by
`decodeImage` / `encodeImageIntoBase64` in `signLanguage.utils.main_utils`, which
is not among the provided sources.  Per the spec it is a pure transport bridge:
`decode(text) -> bytes written to path`, `encode(path) -> text`, failing on
malformed text.  We model it as canonical base64 over byte values `< 256`.
This is the standard base64 alphabet. -/
def b64Alphabet : List Char :=
  [ 'A', 'B', 'C', 'D', 'E', 'F', 'G', 'H', 'I', 'J', 'K', 'L', 'M',
    'N', 'O', 'P', 'Q', 'R', 'S', 'T', 'U', 'V', 'W', 'X', 'Y', 'Z',
    'a', 'b', 'c', 'd', 'e', 'f', 'g', 'h', 'i', 'j', 'k', 'l', 'm',
    'n', 'o', 'p', 'q', 'r', 's', 't', 'u', 'v', 'w', 'x', 'y', 'z',
    '0', '1', '2', '3', '4', '5', '6', '7', '8', '9', '+', '/' ]

/-- Modelled from the spec: the character for a six-bit group. -/
def sextetChar (n : Nat) : Char := b64Alphabet.getD n 'A'

/-- Modelled from the spec: the six-bit value of an alphabet character. -/
def charSextet (c : Char) : Option Nat := b64Alphabet.findIdx? (fun x => x = c)

/-- Modelled from the spec: base64 encoding of a byte sequence, three bytes at
a time, padding the final group with `=`. -/
def b64encode : List Nat → List Char
  | [] => []
  | [a] =>
      [sextetChar (a / 4), sextetChar (a % 4 * 16), '=', '=']
  | [a, b] =>
      [sextetChar (a / 4), sextetChar (a % 4 * 16 + b / 16),
       sextetChar (b % 16 * 4), '=']
  | a :: b :: c :: rest =>
      sextetChar (a / 4) :: sextetChar (a % 4 * 16 + b / 16) ::
      sextetChar (b % 16 * 4 + c / 64) :: sextetChar (c % 64) :: b64encode rest

/-- Modelled from the spec: base64 decoding, `none` on malformed text. -/
def b64decode : List Char → Option (List Nat)
  | [] => some []
  | c1 :: c2 :: c3 :: c4 :: rest =>
      match charSextet c1, charSextet c2 with
      | some s1, some s2 =>
          if c3 = '=' then
            if c4 = '=' then
              if rest = [] ∧ s2 % 16 = 0 then some [s1 * 4 + s2 / 16] else none
            else none
          else
            match charSextet c3 with
            | some s3 =>
                if c4 = '=' then
                  if rest = [] ∧ s3 % 4 = 0 then
                    some [s1 * 4 + s2 / 16, s2 % 16 * 16 + s3 / 4]
                  else none
                else
                  match charSextet c4, b64decode rest with
                  | some s4, some tail =>
                      some ((s1 * 4 + s2 / 16) :: (s2 % 16 * 16 + s3 / 4) ::
                            (s3 % 4 * 64 + s4) :: tail)
                  | _, _ => none
            | none => none
      | _, _ => none
  | _ => none

/-- A text is valid codec input when it is the canonical encoding of some
byte sequence. -/
def isValidB64 (s : List Char) : Prop :=
  ∃ y : List Nat, (∀ b ∈ y, b < 256) ∧ b64encode y = s

lemma charSextet_sextetChar {n : Nat} (h : n < 64) :
    charSextet (sextetChar n) = some n := by
  have : ∀ m : Fin 64, charSextet (sextetChar m.val) = some m.val := by decide
  exact this ⟨n, h⟩

lemma sextetChar_ne_eq {n : Nat} (h : n < 64) : sextetChar n ≠ '=' := by
  have : ∀ m : Fin 64, sextetChar m.val ≠ '=' := by decide
  exact this ⟨n, h⟩

lemma b64_decode_encode (y : List Nat) (h : ∀ b ∈ y, b < 256) :
    b64decode (b64encode y) = some y := by
  induction y using b64encode.induct with
  | case1 => simp [b64encode, b64decode]
  | case2 a =>
      have ha : a < 256 := h a (by simp)
      have h1 : a / 4 < 64 := by omega
      have h2 : a % 4 * 16 < 64 := by omega
      simp only [b64encode, b64decode, charSextet_sextetChar h1,
                 charSextet_sextetChar h2]
      have h0 : a % 4 * 16 % 16 = 0 := by omega
      simp only [if_pos rfl, h0, and_self, if_true]
      simp only [Option.some.injEq, List.cons.injEq, and_true]
      omega
  | case3 a b =>
      have ha : a < 256 := h a (by simp)
      have hb : b < 256 := h b (by simp)
      have h1 : a / 4 < 64 := by omega
      have h2 : a % 4 * 16 + b / 16 < 64 := by omega
      have h3 : b % 16 * 4 < 64 := by omega
      simp only [b64encode, b64decode, charSextet_sextetChar h1,
                 charSextet_sextetChar h2]
      rw [if_neg (sextetChar_ne_eq h3)]
      simp only [charSextet_sextetChar h3]
      have h0 : b % 16 * 4 % 4 = 0 := by omega
      simp only [h0, and_self, if_true, if_pos rfl]
      simp only [Option.some.injEq, List.cons.injEq, and_true]
      refine ⟨by omega, by omega⟩
  | case4 a b c rest ih =>
      have ha : a < 256 := h a (by simp)
      have hb : b < 256 := h b (by simp)
      have hc : c < 256 := h c (by simp)
      have hrest : ∀ x ∈ rest, x < 256 := fun x hx => h x (by simp [hx])
      have h1 : a / 4 < 64 := by omega
      have h2 : a % 4 * 16 + b / 16 < 64 := by omega
      have h3 : b % 16 * 4 + c / 64 < 64 := by omega
      have h4 : c % 64 < 64 := by omega
      simp only [b64encode, b64decode, charSextet_sextetChar h1,
                 charSextet_sextetChar h2]
      rw [if_neg (sextetChar_ne_eq h3)]
      simp only [charSextet_sextetChar h3]
      rw [if_neg (sextetChar_ne_eq h4)]
      simp only [charSextet_sextetChar h4, ih hrest]
      simp only [Option.some.injEq, List.cons.injEq, and_true]
      refine ⟨by omega, by omega, by omega⟩

/-- Modelled from the spec: `decodeImage` output viewed as a string codec;
`encodeImageIntoBase64` produces this text from a file's bytes. -/
def b64encodeS (bytes : List Nat) : String := String.mk (b64encode bytes)

/-- Modelled from the spec: decoding of the request's image text. -/
def b64decodeS (s : String) : Option (List Nat) := b64decode s.data

/-! ## Application model (`src/app.py`) -/

/-- the directory of the current file, `os.path.dirname(__file__)` (app.py line 39);
an abstract fixed token since the deployment root is environment data. -/
def baseDir : String := "APP"

/-- `self.model_path` (app.py line 44). -/
def modelPath : String := baseDir ++ "/yolov5/my_model.pt"

/-- `self.output_dir` (app.py line 43). -/
def outputDir : String := baseDir ++ "/yolov5/runs/detect"

/-- opaque loaded-weights object (`models.yolo.Model`). -/
inductive Model where
  | mk
deriving DecidableEq

/-- one entry of `os.listdir(output_dir)` together with the metadata the
route reads about it: `os.path.isdir` and `os.path.getmtime`. -/
structure DirEntry where
  name : String
  isDir : Bool
  mtime : Nat
deriving DecidableEq

/-- ambient filesystem and process facts one request observes:
whether the weights file exists, whether `torch.load` succeeds on it,
the output-directory listing in iteration order after the detection run,
the bytes of each directory's `image0.jpg` when present, and the exit
status of the spawned detection process. -/
structure FsState where
  weightsExists : Bool
  loadOk : Bool
  listing : List DirEntry
  image0 : String → Option (List Nat)
  detectExit : Int

/-- state of a constructed `ClientApp` instance (app.py lines 36-47). -/
structure ClientApp where
  filename : String
  model : Option Model
deriving DecidableEq

/-- `ClientApp._load_model` (app.py lines 49-59): raises `FileNotFoundError`
when the weights file is absent; wraps `torch.load` in a `try` whose `except`
prints the deserialization failure and returns `None`. -/
def loadModel (st : FsState) : Except String (Option Model) :=
  if st.weightsExists then
    if st.loadOk then .ok (some .mk) else .ok none
  else .error ("Model file not found: " ++ modelPath)

/-- number of `torch.load` disk reads one `_load_model` call performs:
`torch.load` runs exactly when the existence check passes (app.py line 51). -/
def torchLoadCount (st : FsState) : Nat := if st.weightsExists then 1 else 0

/-- `ClientApp.__init__` (app.py lines 37-47): sets the fixed input filename
and stores whatever `_load_model` returns. -/
def mkClientApp (st : FsState) : Except String ClientApp :=
  (loadModel st).map (fun m => { filename := "inputImage.jpg", model := m })

/-- how the external detection routine is handed its parameters. -/
inductive Invocation where
  | argvVec (args : List String)
  | shellStr (cmd : String)
deriving DecidableEq

/-- `yolo_cmd` (app.py lines 68-83): the command parts list built from the
instance fields and the image path. -/
def yoloCmd (imagePath : String) : List String :=
  ["python", baseDir ++ "/yolov5/detect.py",
   "--weights", modelPath,
   "--img", "416",
   "--conf", "0.5",
   "--source", imagePath,
   "--project", outputDir,
   "--name", "exp"]

/-- observable outcome of one `run_yolo_detection` call. -/
structure RunTrace where
  invocation : Invocation
  raisedInternally : Option String
  propagated : Option String
deriving DecidableEq

/-- `ClientApp.run_yolo_detection` (app.py lines 66-94): the parts are joined
by spaces into one string handed to `os.system` (lines 86, 90); a non-zero
exit raises a `RuntimeError` naming the code (lines 91-92) that the
surrounding `except` immediately catches and prints (lines 93-94), so nothing
escapes to the caller. -/
def runYoloDetection (imagePath : String) (exitCode : Int) : RunTrace :=
  { invocation := .shellStr (String.intercalate " " (yoloCmd imagePath))
  , raisedInternally :=
      if exitCode ≠ 0 then
        some ("YOLO detection failed with code " ++ toString exitCode)
      else none
  , propagated := none }

/-- Python `max(xs, key=f)` (app.py line 140): folds left keeping the current
best and replacing it only on a strictly larger key, so among tied keys the
earliest element in iteration order wins. -/
def pyMaxBy (key : DirEntry → Nat) (acc : DirEntry) : List DirEntry → DirEntry
  | [] => acc
  | x :: xs => pyMaxBy key (if key x > key acc then x else acc) xs

/-- Python `s.startswith(pre)`, as a character-list comparison. -/
def pyStartsWith (s pre : String) : Bool := pre.data.isPrefixOf s.data

/-- `exp_folders` (app.py lines 133-134). -/
def expFolders (listing : List DirEntry) : List DirEntry :=
  listing.filter (fun d => pyStartsWith d.name "exp" && d.isDir)

/-- app.py lines 133-142: the name of the experiment directory the route
serves the artifact from, `None` when no candidate folder exists. -/
def resolveLatest (listing : List DirEntry) : Option String :=
  match expFolders listing with
  | [] => none
  | f :: fs => some (pyMaxBy (fun d => d.mtime) f fs).name

/-- shape of the `/predict` request body as the route inspects it. -/
inductive Body where
  | notJson
  | json (image : Option String)
deriving DecidableEq

/-- response payload: a JSON object with an `error` field or an `image` field. -/
inductive Resp where
  | errorPayload (msg : String)
  | imagePayload (b64 : String)
deriving DecidableEq

/-- outcome of one route call: a status/payload response, or an exception
that escapes the route handler unhandled. -/
inductive RouteResult where
  | unhandled (exc : String)
  | response (status : Nat) (body : Resp)
deriving DecidableEq

/-- trace of one `/predict` call: its result, how many `torch.load` disk
reads it performed, where the decoded input image was persisted, the
detection-invocation trace when one was launched, and which experiment
directory the served artifact came from. -/
structure PredictTrace where
  result : RouteResult
  torchLoads : Nat
  writtenInputPath : Option String
  detection : Option RunTrace
  servedDir : Option String
deriving DecidableEq

/-- `predictRoute` (app.py lines 115-156).  `ClientApp()` is constructed
before the `try` block (line 118), so a construction failure escapes
unhandled.  Inside the `try`: non-JSON body → 400; missing or empty image
field → 400; `decodeImage` failure → caught by the outer `except` → 500;
then `run_yolo_detection` (whose failures are swallowed internally), the
`exp*` scan, the mtime maximum, and the `image0.jpg` read. -/
def predictRoute (body : Body) (st : FsState) : PredictTrace :=
  match mkClientApp st with
  | .error exc => ⟨.unhandled exc, torchLoadCount st, none, none, none⟩
  | .ok clApp =>
    match body with
    | .notJson =>
        ⟨.response 400 (.errorPayload "Request must be JSON"),
         torchLoadCount st, none, none, none⟩
    | .json none =>
        ⟨.response 400 (.errorPayload "No image provided"),
         torchLoadCount st, none, none, none⟩
    | .json (some img) =>
        if img = "" then
          ⟨.response 400 (.errorPayload "No image provided"),
           torchLoadCount st, none, none, none⟩
        else
          match b64decodeS img with
          | none =>
              ⟨.response 500 (.errorPayload "Invalid base64-encoded string"),
               torchLoadCount st, none, none, none⟩
          | some _ =>
              match expFolders st.listing with
              | [] =>
                  ⟨.response 500 (.errorPayload "No experiment folders found"),
                   torchLoadCount st,
                   some (baseDir ++ "/data/" ++ clApp.filename),
                   some (runYoloDetection (baseDir ++ "/data/" ++ clApp.filename)
                           st.detectExit),
                   none⟩
              | f :: fs =>
                  match st.image0 (pyMaxBy (fun d => d.mtime) f fs).name with
                  | none =>
                      ⟨.response 500 (.errorPayload "Predicted image not found"),
                       torchLoadCount st,
                       some (baseDir ++ "/data/" ++ clApp.filename),
                       some (runYoloDetection
                               (baseDir ++ "/data/" ++ clApp.filename)
                               st.detectExit),
                       some (pyMaxBy (fun d => d.mtime) f fs).name⟩
                  | some bytes =>
                      ⟨.response 200 (.imagePayload (b64encodeS bytes)),
                       torchLoadCount st,
                       some (baseDir ++ "/data/" ++ clApp.filename),
                       some (runYoloDetection
                               (baseDir ++ "/data/" ++ clApp.filename)
                               st.detectExit),
                       some (pyMaxBy (fun d => d.mtime) f fs).name⟩

/-- outcome of one `/warmup` call. -/
inductive WarmupResult where
  | unhandled (exc : String)
  | ok (status : String)
deriving DecidableEq

/-- `warmup` (app.py lines 109-113): constructs a fresh `ClientApp` outside
any `try` and returns the fixed success status. -/
def warmup (st : FsState) : WarmupResult :=
  match mkClientApp st with
  | .error exc => .unhandled exc
  | .ok _ => .ok "Model loaded"

/-- total `torch.load` disk reads across a sequence of `/predict` calls in
one process lifetime. -/
def totalTorchLoads (st : FsState) (bodies : List Body) : Nat :=
  (bodies.map (fun b => (predictRoute b st).torchLoads)).sum

/-! ## Concrete states used by counterexamples and witnesses -/

/-- weights present and loadable; one experiment directory holding a result. -/
def stGood : FsState :=
  { weightsExists := true
  , loadOk := true
  , listing := [⟨"exp", true, 5⟩]
  , image0 := fun d => if d = "exp" then some [7, 7, 7] else none
  , detectExit := 0 }

/-- like `stGood` but the detection process exited with status 1. -/
def stExitOne : FsState := { stGood with detectExit := 1 }

/-- like `stGood` but `torch.load` fails on the weights file. -/
def stBadLoad : FsState := { stGood with loadOk := false }

/-- the weights file is absent. -/
def stNoWeights : FsState :=
  { weightsExists := false, loadOk := false, listing := []
  , image0 := fun _ => none, detectExit := 0 }

/-- weights fine, but the output root holds no experiment directory at all. -/
def stEmptyRuns : FsState :=
  { weightsExists := true, loadOk := true, listing := []
  , image0 := fun _ => none, detectExit := 0 }

/-- a failed run that created nothing, while a stale directory `exp` of an
earlier run (mtime 3) still holds an artifact. -/
def stStale : FsState :=
  { weightsExists := true, loadOk := true
  , listing := [⟨"exp", true, 3⟩]
  , image0 := fun d => if d = "exp" then some [9, 9, 9] else none
  , detectExit := 1 }

/-! ## Helper lemmas -/

lemma pyMaxBy_cons (key : DirEntry → Nat) (acc y : DirEntry) (ys : List DirEntry) :
    pyMaxBy key acc (y :: ys) =
      pyMaxBy key (if key y > key acc then y else acc) ys := rfl

lemma pyMaxBy_spec (key : DirEntry → Nat) (fs : List DirEntry) :
    ∀ acc : DirEntry,
      (pyMaxBy key acc fs = acc ∨ pyMaxBy key acc fs ∈ fs) ∧
      key acc ≤ key (pyMaxBy key acc fs) ∧
      ∀ x ∈ fs, key x ≤ key (pyMaxBy key acc fs) := by
  induction fs with
  | nil =>
      intro acc
      refine ⟨Or.inl rfl, le_refl _, ?_⟩
      intro x hx
      simp at hx
  | cons y ys ih =>
      intro acc
      rw [pyMaxBy_cons]
      obtain ⟨hmem, hle, hall⟩ := ih (if key y > key acc then y else acc)
      have hacc : key acc ≤ key (if key y > key acc then y else acc) := by
        by_cases hgy : key y > key acc
        · rw [if_pos hgy]; omega
        · rw [if_neg hgy]
      have hy : key y ≤ key (if key y > key acc then y else acc) := by
        by_cases hgy : key y > key acc
        · rw [if_pos hgy]
        · rw [if_neg hgy]; omega
      refine ⟨?_, le_trans hacc hle, ?_⟩
      · rcases hmem with hm | hm
        · by_cases hgy : key y > key acc
          · rw [if_pos hgy] at hm ⊢
            rw [hm]
            exact Or.inr (List.mem_cons_self y ys)
          · rw [if_neg hgy] at hm ⊢
            exact Or.inl hm
        · exact Or.inr (List.mem_cons_of_mem y hm)
      · intro x hx
        rcases List.mem_cons.mp hx with rfl | hxs
        · exact le_trans hy hle
        · exact hall x hxs

lemma mkClientApp_ok (st : FsState) (hw : st.weightsExists = true) :
    mkClientApp st =
      .ok { filename := "inputImage.jpg"
          , model := if st.loadOk then some Model.mk else none } := by
  unfold mkClientApp loadModel
  rw [hw]
  by_cases hl : st.loadOk
  · simp [hl, Except.map]
  · simp [hl, Except.map]

lemma mkClientApp_filename (st : FsState) (c : ClientApp)
    (h : mkClientApp st = .ok c) : c.filename = "inputImage.jpg" := by
  unfold mkClientApp at h
  cases hl : loadModel st with
  | error e =>
      rw [hl] at h
      simp [Except.map] at h
  | ok m =>
      rw [hl] at h
      simp only [Except.map] at h
      cases h
      rfl

lemma predictRoute_torchLoads (b : Body) (st : FsState) :
    (predictRoute b st).torchLoads = torchLoadCount st := by
  unfold predictRoute
  repeat' split
  all_goals rfl

/-! ## Claim theorems -/

/-- Claim C1, counterexample: with two candidate directories `exp` and `exp2`
completing within the same timestamp tick (equal mtime), the resolver's
answer depends on the directory iteration order, and on the tie it does not
pick the lexicographically greatest name — so resolution is neither a direct
lookup by correlation id nor deterministically tie-broken. -/
theorem c1_counterexample :
    resolveLatest [⟨"exp", true, 5⟩, ⟨"exp2", true, 5⟩] = some "exp" ∧
    resolveLatest [⟨"exp2", true, 5⟩, ⟨"exp", true, 5⟩] = some "exp2" ∧
    resolveLatest [⟨"exp", true, 5⟩, ⟨"exp2", true, 5⟩] ≠
      resolveLatest [⟨"exp2", true, 5⟩, ⟨"exp", true, 5⟩] :=
  ⟨by decide, by decide, by decide⟩

/-- Claim C1 (amended): artifact resolution is not a correlation-id keyed
lookup; it scans the directories under the output root whose names start
with `exp` and returns one carrying the maximal modification time, with
ties going to the earliest entry in directory iteration order — so when two
runs share a timestamp tick, which request's artifact is returned depends
on iteration order, not on the requesting caller. -/
theorem c1_amended_resolution (listing : List DirEntry) (n : String)
    (h : resolveLatest listing = some n) :
    ∃ d ∈ expFolders listing, d.name = n ∧
      ∀ x ∈ expFolders listing, x.mtime ≤ d.mtime := by
  unfold resolveLatest at h
  cases hef : expFolders listing with
  | nil => rw [hef] at h; simp at h
  | cons f fs =>
      rw [hef] at h
      simp only [Option.some.injEq] at h
      obtain ⟨hmem, hle, hall⟩ := pyMaxBy_spec (fun d => d.mtime) fs f
      refine ⟨pyMaxBy (fun d => d.mtime) f fs, ?_, h, ?_⟩
      · rcases hmem with hm | hm
        · rw [hm]
          exact List.mem_cons_self f fs
        · exact List.mem_cons_of_mem f hm
      · intro x hx
        rcases List.mem_cons.mp hx with rfl | hxs
        · exact hle
        · exact hall x hxs

/-- Claim C1, witness for the amended theorem at a concrete listing. -/
theorem c1_witness :
    ∃ d ∈ expFolders [⟨"exp", true, 5⟩, ⟨"exp2", true, 5⟩], d.name = "exp" ∧
      ∀ x ∈ expFolders [⟨"exp", true, 5⟩, ⟨"exp2", true, 5⟩],
        x.mtime ≤ d.mtime :=
  c1_amended_resolution [⟨"exp", true, 5⟩, ⟨"exp2", true, 5⟩] "exp" (by decide)

/-- Claim C2, counterexample: two `/predict` calls in one process lifetime
perform two `torch.load` disk reads, refuting "loaded from disk at most
once". -/
theorem c2_counterexample :
    totalTorchLoads stGood [.json (some "TWFu"), .json (some "TWFu")] = 2 ∧
    ¬ totalTorchLoads stGood [.json (some "TWFu"), .json (some "TWFu")] ≤ 1 :=
  ⟨by decide, by decide⟩

/-- Claim C2 (amended): there is no process-wide model cache — every
`/predict` call constructs a fresh `ClientApp` and, whenever the weights
file exists, performs its own `torch.load` disk read, so N calls perform
exactly N loads. -/
theorem c2_amended_loads (st : FsState) (bodies : List Body)
    (h : st.weightsExists = true) :
    totalTorchLoads st bodies = bodies.length := by
  unfold totalTorchLoads
  induction bodies with
  | nil => rfl
  | cons b bs ih =>
      simp only [List.map_cons, List.sum_cons, ih, List.length_cons,
                 predictRoute_torchLoads]
      unfold torchLoadCount
      rw [h]
      simp
      omega

/-- Claim C2, witness for the amended theorem: three calls, three loads. -/
theorem c2_witness :
    totalTorchLoads stGood [.notJson, .json none, .json (some "TWFu")] = 3 :=
  c2_amended_loads stGood [.notJson, .json none, .json (some "TWFu")] rfl

/-- Claim C3, counterexample: a detection invocation exiting with status 1
raises internally but propagates nothing to the caller, and a `/predict`
call in such a state still proceeds to resolution and returns a 200 success
response — the failure is swallowed, not surfaced. -/
theorem c3_counterexample :
    (runYoloDetection (baseDir ++ "/data/inputImage.jpg") 1).raisedInternally =
      some "YOLO detection failed with code 1" ∧
    (runYoloDetection (baseDir ++ "/data/inputImage.jpg") 1).propagated = none ∧
    (predictRoute (.json (some "TWFu")) stExitOne).result =
      .response 200 (.imagePayload (b64encodeS [7, 7, 7])) :=
  ⟨by decide, rfl, by decide⟩

/-- Claim C3 (amended): a non-zero exit status `c` raises a `RuntimeError`
whose message carries `c`, but the `except` block inside
`run_yolo_detection` catches and prints it, so no error propagates to the
caller and result resolution proceeds regardless. -/
theorem c3_amended_swallowed (imagePath : String) (c : Int) (h : c ≠ 0) :
    (runYoloDetection imagePath c).raisedInternally =
      some ("YOLO detection failed with code " ++ toString c) ∧
    (runYoloDetection imagePath c).propagated = none := by
  constructor
  · simp [runYoloDetection, h]
  · rfl

/-- Claim C3, witness for the amended theorem at exit code 2. -/
theorem c3_witness :
    (runYoloDetection "img.jpg" 2).raisedInternally =
      some ("YOLO detection failed with code " ++ toString (2 : Int)) ∧
    (runYoloDetection "img.jpg" 2).propagated = none :=
  c3_amended_swallowed "img.jpg" 2 (by decide)

/-- Claim C4, counterexample: for a user-derived source path carrying a shell
metacharacter, the invocation is the single space-joined shell command
string handed to `os.system`, not an argument vector — the concatenation the
claim says never happens. -/
theorem c4_counterexample :
    (runYoloDetection "APP/data/inputImage.jpg; touch pwned" 0).invocation =
      .shellStr ("python APP/yolov5/detect.py --weights APP/yolov5/my_model.pt --img 416 --conf 0.5 --source APP/data/inputImage.jpg; touch pwned --project APP/yolov5/runs/detect --name exp") ∧
    (runYoloDetection "APP/data/inputImage.jpg; touch pwned" 0).invocation ≠
      .argvVec (yoloCmd "APP/data/inputImage.jpg; touch pwned") :=
  ⟨by set_option maxRecDepth 4096 in decide,
   by set_option maxRecDepth 4096 in decide⟩

/-- Claim C4 (amended): the command is built as a list of discrete parts from
the config fields, but the parts are then joined with spaces into one shell
command string executed via `os.system`, for every source value including
user-derived ones. -/
theorem c4_amended_shell_invocation (imagePath : String) (c : Int) :
    (runYoloDetection imagePath c).invocation =
      .shellStr (String.intercalate " " (yoloCmd imagePath)) := rfl

/-- Claim C4, witness for the amended theorem at a concrete path. -/
theorem c4_witness :
    (runYoloDetection "img.jpg" 0).invocation =
      .shellStr (String.intercalate " " (yoloCmd "img.jpg")) :=
  c4_amended_shell_invocation "img.jpg" 0

/-- Claim C5, counterexample: when deserialization of the weights fails,
`warmup` still answers the success status "Model loaded" although the
constructed instance holds no model. -/
theorem c5_counterexample :
    warmup stBadLoad = .ok "Model loaded" ∧
    mkClientApp stBadLoad =
      .ok { filename := "inputImage.jpg", model := none } :=
  ⟨rfl, rfl⟩

/-- Claim C5 (amended): `warmup`'s answer never reflects whether a model is
held — if the weights file is absent, the `FileNotFoundError` from
`ClientApp` construction escapes the route unhandled (no status naming
`ConfigurationError`), and whenever the file exists `warmup` returns the
fixed success status "Model loaded" even when deserialization failed and no
model is in memory. -/
theorem c5_amended_warmup (st : FsState) :
    (st.weightsExists = false →
      warmup st = .unhandled ("Model file not found: " ++ modelPath)) ∧
    (st.weightsExists = true → warmup st = .ok "Model loaded") := by
  constructor
  · intro h
    unfold warmup mkClientApp loadModel
    rw [h]
    rfl
  · intro h
    unfold warmup
    rw [mkClientApp_ok st h]

/-- Claim C5, witness for the amended theorem on a loadable-weights state. -/
theorem c5_witness : warmup stGood = .ok "Model loaded" :=
  (c5_amended_warmup stGood).2 rfl

/-- Claim C6, counterexample: a detection run that exits with status 1 and
creates nothing is not reported — because a stale directory `exp` from an
earlier run still holds an artifact, `/predict` returns a 200 success
response carrying the stale bytes, so a zero-artifact outcome silently
yields success. -/
theorem c6_counterexample :
    stStale.detectExit = 1 ∧
    stStale.listing = [⟨"exp", true, 3⟩] ∧
    (predictRoute (.json (some "TWFu")) stStale).result =
      .response 200 (.imagePayload (b64encodeS [9, 9, 9])) ∧
    (predictRoute (.json (some "TWFu")) stStale).servedDir = some "exp" :=
  ⟨rfl, rfl, by decide, by decide⟩

/-- Claim C6 (amended): `/predict` reports an error (a generic 500 payload,
not a typed `ArtifactResolutionError`) only when no `exp`-prefixed directory
exists under the output root at all, or when the scan-selected latest
directory lacks `image0.jpg`; when the run itself produces nothing but a
stale experiment directory with an artifact remains, a success response with
the stale artifact is returned instead. -/
theorem c6_amended_resolution_errors (st : FsState) (img : String)
    (y : List Nat) (hw : st.weightsExists = true) (hne : img ≠ "")
    (hv : b64decodeS img = some y) :
    (expFolders st.listing = [] →
      (predictRoute (.json (some img)) st).result =
        .response 500 (.errorPayload "No experiment folders found")) ∧
    (∀ f fs, expFolders st.listing = f :: fs →
      st.image0 (pyMaxBy (fun d => d.mtime) f fs).name = none →
      (predictRoute (.json (some img)) st).result =
        .response 500 (.errorPayload "Predicted image not found")) := by
  constructor
  · intro hef
    unfold predictRoute
    rw [mkClientApp_ok st hw]
    simp only [if_neg hne, hv, hef]
  · intro f fs hef hnone
    unfold predictRoute
    rw [mkClientApp_ok st hw]
    simp only [if_neg hne, hv, hef, hnone]

/-- Claim C6, witness for the amended theorem: empty output root → 500. -/
theorem c6_witness :
    (predictRoute (.json (some "TWFu")) stEmptyRuns).result =
      .response 500 (.errorPayload "No experiment folders found") :=
  (c6_amended_resolution_errors stEmptyRuns "TWFu" [77, 97, 110] rfl
    (by decide) (by decide)).1 rfl

/-- Claim C7, counterexample: two distinct requests (distinct payloads — the
code carries no correlation id at all) persist their decoded input images to
the one same fixed path, not to distinct per-request paths. -/
theorem c7_counterexample :
    Body.json (some "TWFu") ≠ Body.json (some "AQID") ∧
    (predictRoute (.json (some "TWFu")) stGood).writtenInputPath =
      some (baseDir ++ "/data/inputImage.jpg") ∧
    (predictRoute (.json (some "AQID")) stGood).writtenInputPath =
      some (baseDir ++ "/data/inputImage.jpg") :=
  ⟨by decide, by decide, by decide⟩

/-- Claim C7 (amended): the persisted input path is not keyed per request —
every `/predict` call that persists its decoded image writes it to the
single shared fixed path `<base>/data/inputImage.jpg`
(`self.filename = "inputImage.jpg"`), whatever the request. -/
theorem c7_amended_shared_path (b : Body) (st : FsState) :
    (predictRoute b st).writtenInputPath = none ∨
    (predictRoute b st).writtenInputPath =
      some (baseDir ++ "/data/inputImage.jpg") := by
  have hpath : baseDir ++ "/data/" ++ "inputImage.jpg" =
      baseDir ++ "/data/inputImage.jpg" := by decide
  unfold predictRoute
  cases hm : mkClientApp st with
  | error e => exact Or.inl rfl
  | ok c =>
      dsimp only
      rw [mkClientApp_filename st c hm]
      repeat' split
      all_goals first
        | exact Or.inl rfl
        | exact Or.inr (congrArg some hpath)

/-- Claim C7, witness for the amended theorem at a concrete request. -/
theorem c7_witness :
    (predictRoute (.json (some "TWFu")) stGood).writtenInputPath = none ∨
    (predictRoute (.json (some "TWFu")) stGood).writtenInputPath =
      some (baseDir ++ "/data/inputImage.jpg") :=
  c7_amended_shared_path (.json (some "TWFu")) stGood

/-- Claim C8, counterexample: `ClientApp()` is constructed before the `try`
block, so a `/predict` call whose body is not JSON still terminates with an
unhandled `FileNotFoundError` when the weights file is absent — not with a
structured validation payload. -/
theorem c8_counterexample :
    (predictRoute .notJson stNoWeights).result =
      .unhandled ("Model file not found: " ++ modelPath) := rfl

/-- Claim C8 (amended): provided the weights file exists so that `ClientApp`
construction succeeds, a non-JSON body and a missing or empty image field
each return a 400 structured error payload, and a well-formed request whose
artifact exists returns a 200 payload with the encoded result image; when
construction fails, the exception escapes the route unhandled. -/
theorem c8_amended_validation (st : FsState) (hw : st.weightsExists = true) :
    ((predictRoute .notJson st).result =
      .response 400 (.errorPayload "Request must be JSON")) ∧
    ((predictRoute (.json none) st).result =
      .response 400 (.errorPayload "No image provided")) ∧
    ((predictRoute (.json (some "")) st).result =
      .response 400 (.errorPayload "No image provided")) ∧
    (∀ img y f fs bytes, img ≠ "" → b64decodeS img = some y →
      expFolders st.listing = f :: fs →
      st.image0 (pyMaxBy (fun d => d.mtime) f fs).name = some bytes →
      (predictRoute (.json (some img)) st).result =
        .response 200 (.imagePayload (b64encodeS bytes))) := by
  refine ⟨?_, ?_, ?_, ?_⟩
  · unfold predictRoute
    rw [mkClientApp_ok st hw]
  · unfold predictRoute
    rw [mkClientApp_ok st hw]
  · unfold predictRoute
    rw [mkClientApp_ok st hw]
    rfl
  · intro img y f fs bytes hne hv hef hbytes
    unfold predictRoute
    rw [mkClientApp_ok st hw]
    simp only [if_neg hne, hv, hef, hbytes]

/-- Claim C8, witness for the amended theorem on a loadable-weights state
with one artifact present. -/
theorem c8_witness :
    (predictRoute .notJson stGood).result =
      .response 400 (.errorPayload "Request must be JSON") ∧
    (predictRoute (.json (some "TWFu")) stGood).result =
      .response 200 (.imagePayload (b64encodeS [7, 7, 7])) :=
  ⟨(c8_amended_validation stGood rfl).1,
   (c8_amended_validation stGood rfl).2.2.2 "TWFu" [77, 97, 110]
     ⟨"exp", true, 5⟩ [] [7, 7, 7] (by decide) (by decide) (by decide)
     (by decide)⟩

/-- Claim C9: for every valid codec input (the canonical encoding of some
byte sequence), decoding and re-encoding reproduces it bit-for-bit:
`b64encode` of the bytes written by `b64decode` is the original text. -/
theorem c9_codec_roundtrip (s : List Char) (h : isValidB64 s) :
    ∃ y, b64decode s = some y ∧ b64encode y = s := by
  obtain ⟨y, hy, rfl⟩ := h
  exact ⟨y, b64_decode_encode y hy, rfl⟩

/-- Claim C9, witness at the concrete valid input `TWFu`. -/
theorem c9_witness :
    isValidB64 "TWFu".data ∧
    ∃ y, b64decode "TWFu".data = some y ∧ b64encode y = "TWFu".data :=
  ⟨⟨[77, 97, 110], by decide, by decide⟩,
   c9_codec_roundtrip "TWFu".data ⟨[77, 97, 110], by decide, by decide⟩⟩

/-- Claim C10: when the weights file exists but deserialization fails,
`ClientApp` construction nevertheless completes with `model = None` (the
exception is caught and only printed), and every subsequent `/predict` call
on such a state proceeds to a response — detection runs with no loaded model
in memory rather than failing construction. -/
theorem c10_model_none_proceeds (st : FsState)
    (hw : st.weightsExists = true) (hl : st.loadOk = false) :
    mkClientApp st = .ok { filename := "inputImage.jpg", model := none } ∧
    ∀ b, ∃ s r, (predictRoute b st).result = .response s r := by
  have h1 : mkClientApp st =
      .ok { filename := "inputImage.jpg", model := none } := by
    unfold mkClientApp loadModel
    rw [hw, hl]
    rfl
  refine ⟨h1, ?_⟩
  intro b
  unfold predictRoute
  rw [h1]
  dsimp only
  repeat' split
  all_goals exact ⟨_, _, rfl⟩

/-- Claim C10, witness on the concrete failed-deserialization state. -/
theorem c10_witness :
    mkClientApp stBadLoad =
      .ok { filename := "inputImage.jpg", model := none } ∧
    ∃ s r, (predictRoute .notJson stBadLoad).result = .response s r :=
  ⟨(c10_model_none_proceeds stBadLoad rfl rfl).1,
   (c10_model_none_proceeds stBadLoad rfl rfl).2 .notJson⟩

end SignApp
